import Mathlib

/-!
Verification of the saturn-mousehunter-crawler-service core against its
natural-language specification.

The repository contains two near-identical consumer modules:
  * `src/application/consumer/dragonfly_task_consumer.py`  (namespace `ConsumerC`)
  * `src/application/services/dragonfly_task_consumer.py`  (namespace `ServicesC`)
plus the graceful-shutdown manager, the proxy integration service and the
K8s autoscaler.  Each Lean definition below is a direct shallow embedding of
the corresponding Python function; effects (status events published, broker
re-enqueues, counter increments) are collected in explicit records.
-/

/-- Queue priority, from `saturn_mousehunter_shared.mq.message_types.QueuePriority`. -/
inductive QueuePriority where
  | CRITICAL
  | HIGH
  | NORMAL
  | LOW
deriving DecidableEq

/-- The wire-level task (`DragonflyTask`): only the fields the consumer logic
reads or writes.  `retry_count` and `max_retries` are machine ints used as
counters; they are embedded as `Nat`. -/
structure DragonflyTask where
  task_id : String
  task_type : String
  market : String
  priority : QueuePriority
  retry_count : Nat
  max_retries : Nat
deriving DecidableEq

/-- Observable effects of one consumer code path: status events appended via
`update_task_status` (pairs of task id and status string, in order), broker
re-enqueues via `enqueue_task` (task together with `delay_seconds`), and the
deltas applied to the worker's stats counters. -/
structure Effects where
  statuses : List (String × String)
  enqueues : List (DragonflyTask × Nat)
  successDelta : Nat
  failedDelta : Nat
  retryDelta : Nat
  timeoutDelta : Nat
deriving DecidableEq

namespace ConsumerC

/-- `CrawlerTaskConsumer._handle_task_failure`
(src/application/consumer/dragonfly_task_consumer.py, lines 322-357).
If retry budget remains: increment `retry_count`, re-enqueue with delay
`min(60 * 2 ** (retry_count - 1), 300)` (no status event is published on this
path), bump `retry_tasks`.  Otherwise publish FAILED and bump `tasks_failed`. -/
def handleTaskFailure (task : DragonflyTask) : Effects :=
  if task.retry_count < task.max_retries then
    let t : DragonflyTask := { task with retry_count := task.retry_count + 1 }
    let delay : Nat := min (60 * 2 ^ (t.retry_count - 1)) 300
    { statuses := [], enqueues := [(t, delay)],
      successDelta := 0, failedDelta := 0, retryDelta := 1, timeoutDelta := 0 }
  else
    { statuses := [(task.task_id, "FAILED")], enqueues := [],
      successDelta := 0, failedDelta := 1, retryDelta := 0, timeoutDelta := 0 }

/-- `CrawlerTaskConsumer._handle_task_timeout`
(src/application/consumer/dragonfly_task_consumer.py, lines 359-390).
If retry budget remains: increment `retry_count` and re-enqueue with the fixed
delay 300 s, publishing no status event; otherwise publish TIMEOUT.
`tasks_timeout` is bumped after the if/else, i.e. in both branches. -/
def handleTaskTimeout (task : DragonflyTask) : Effects :=
  if task.retry_count < task.max_retries then
    let t : DragonflyTask := { task with retry_count := task.retry_count + 1 }
    { statuses := [], enqueues := [(t, 300)],
      successDelta := 0, failedDelta := 0, retryDelta := 0, timeoutDelta := 1 }
  else
    { statuses := [(task.task_id, "TIMEOUT")], enqueues := [],
      successDelta := 0, failedDelta := 0, retryDelta := 0, timeoutDelta := 1 }

end ConsumerC

namespace ServicesC

/-- `DragonflyTaskConsumer._handle_task_failure`
(src/application/services/dragonfly_task_consumer.py, lines 319-370).
If retry budget remains: increment `retry_count`, publish RETRY, re-enqueue
with delay `min(60 * 2 ** retry_count, 3600)` (exponent taken AFTER the
increment, cap one hour), bump `retry_tasks`.  Otherwise publish FAILED. -/
def handleTaskFailure (task : DragonflyTask) : Effects :=
  if task.retry_count < task.max_retries then
    let t : DragonflyTask := { task with retry_count := task.retry_count + 1 }
    let delay : Nat := min (60 * 2 ^ t.retry_count) 3600
    { statuses := [(task.task_id, "RETRY")], enqueues := [(t, delay)],
      successDelta := 0, failedDelta := 0, retryDelta := 1, timeoutDelta := 0 }
  else
    { statuses := [(task.task_id, "FAILED")], enqueues := [],
      successDelta := 0, failedDelta := 1, retryDelta := 0, timeoutDelta := 0 }

/-- `DragonflyTaskConsumer._handle_task_timeout`
(src/application/services/dragonfly_task_consumer.py, lines 396-430).
A TIMEOUT status is published and `timeout_tasks` bumped unconditionally,
BEFORE the retry decision; if budget remains the task is then re-enqueued
with the fixed delay 300 s (no RETRY status is ever published here). -/
def handleTaskTimeout (task : DragonflyTask) : Effects :=
  if task.retry_count < task.max_retries then
    let t : DragonflyTask := { task with retry_count := task.retry_count + 1 }
    { statuses := [(task.task_id, "TIMEOUT")], enqueues := [(t, 300)],
      successDelta := 0, failedDelta := 0, retryDelta := 0, timeoutDelta := 1 }
  else
    { statuses := [(task.task_id, "TIMEOUT")], enqueues := [],
      successDelta := 0, failedDelta := 0, retryDelta := 0, timeoutDelta := 1 }

end ServicesC

example : (ConsumerC.handleTaskFailure
    ⟨"T3", "1m_realtime", "CN", QueuePriority.HIGH, 0, 3⟩).enqueues =
    [(⟨"T3", "1m_realtime", "CN", QueuePriority.HIGH, 1, 3⟩, 60)] := by decide

example : (ServicesC.handleTaskFailure
    ⟨"T3", "1m_realtime", "CN", QueuePriority.HIGH, 0, 3⟩).enqueues =
    [(⟨"T3", "1m_realtime", "CN", QueuePriority.HIGH, 1, 3⟩, 120)] := by decide

/-- How a dispatched handler coroutine terminates, as seen by
`_execute_task`: returned `True`, returned `False`, raised an exception, or
was cut off by `asyncio.wait_for` (consumer-module variant only; the
services-module variant has no deadline race inside `_execute_task`). -/
inductive HandlerOutcome where
  | ok
  | returnedFalse
  | raised
  | timedOut
deriving DecidableEq

/-- A handler as the consumer sees it: a function from the task to how its
invocation terminates.  The registry is `task_handlers.get`, a partial map
from `task_type` strings. -/
def HandlerMap : Type := String → Option (DragonflyTask → HandlerOutcome)

namespace ConsumerC

/-- `CrawlerTaskConsumer._execute_task`
(src/application/consumer/dragonfly_task_consumer.py, lines 270-320).
Publishes RUNNING, looks up the handler — falling back to
`crawler_engine.execute_crawling_task` (the default handler) when the
registry misses — runs it under `asyncio.wait_for`, and classifies the
outcome: COMPLETED / failure path / timeout path.  The `finally` block pops
the execution from the active map (modelled by the caller). -/
def executeTask (handlers : HandlerMap)
    (defaultHandler : DragonflyTask → HandlerOutcome)
    (task : DragonflyTask) : Effects :=
  let handler : DragonflyTask → HandlerOutcome :=
    match handlers task.task_type with
    | some h => h
    | none => defaultHandler
  let rest : Effects :=
    match handler task with
    | HandlerOutcome.ok =>
      { statuses := [(task.task_id, "COMPLETED")], enqueues := [],
        successDelta := 1, failedDelta := 0, retryDelta := 0, timeoutDelta := 0 }
    | HandlerOutcome.returnedFalse => handleTaskFailure task
    | HandlerOutcome.raised => handleTaskFailure task
    | HandlerOutcome.timedOut => handleTaskTimeout task
  { rest with statuses := (task.task_id, "RUNNING") :: rest.statuses }

end ConsumerC

namespace ServicesC

/-- `DragonflyTaskConsumer._execute_task`
(src/application/services/dragonfly_task_consumer.py, lines 268-317).
Publishes RUNNING, looks up the handler; when the registry misses it raises
`Exception("未找到任务处理器")`, which the surrounding `except` turns into the
ordinary failure path (`_handle_task_failure`) — there is NO default handler
and NO immediate-FAILED special case.  On a handler return the outcome is
SUCCESS or the failure path. -/
def executeTask (handlers : HandlerMap) (task : DragonflyTask) : Effects :=
  let rest : Effects :=
    match handlers task.task_type with
    | none => handleTaskFailure task
    | some h =>
      match h task with
      | HandlerOutcome.ok =>
        { statuses := [(task.task_id, "SUCCESS")], enqueues := [],
          successDelta := 1, failedDelta := 0, retryDelta := 0, timeoutDelta := 0 }
      | _ => handleTaskFailure task
  { rest with statuses := (task.task_id, "RUNNING") :: rest.statuses }

end ServicesC

/-- Result of the dequeue-loop body for one dequeued task, before any
dispatch: either the task is re-enqueued (filter reject) or an execution is
created and dispatched. -/
inductive StepResult where
  | requeue (t : DragonflyTask) (delay : Nat)
  | dispatch (t : DragonflyTask)
deriving DecidableEq

/-- Worker configuration (`WorkerConfig`), shared shape of both modules.
In the consumer module `__post_init__` replaces `None` lists by defaults, so
the lists are always present; `None` is embedded as the empty list for the
services module (where only truthiness is tested). -/
structure WorkerConfig where
  worker_id : String
  max_concurrent_tasks : Nat
  task_timeout_seconds : Nat
  supported_task_types : List String
  supported_markets : List String
deriving DecidableEq

namespace ConsumerC

/-- Filter portion of `CrawlerTaskConsumer._consume_priority_queue`
(src/application/consumer/dragonfly_task_consumer.py, lines 216-251):
if `task.task_type not in supported_task_types` or
`task.market not in supported_markets`, set `task.priority = LOW`,
re-enqueue with `delay_seconds=60` and continue; otherwise create the
execution and dispatch. -/
def filterTask (cfg : WorkerConfig) (task : DragonflyTask) : StepResult :=
  if task.task_type ∉ cfg.supported_task_types then
    StepResult.requeue { task with priority := QueuePriority.LOW } 60
  else if task.market ∉ cfg.supported_markets then
    StepResult.requeue { task with priority := QueuePriority.LOW } 60
  else
    StepResult.dispatch task

end ConsumerC

namespace ServicesC

/-- Filter portion of `DragonflyTaskConsumer._consume_queue`
(src/application/services/dragonfly_task_consumer.py, lines 208-247).
Identical to the consumer module except that each membership test is guarded
by the truthiness of the configured list
(`if (self.worker_config.supported_task_types and ...)`). -/
def filterTask (cfg : WorkerConfig) (task : DragonflyTask) : StepResult :=
  if cfg.supported_task_types ≠ [] ∧ task.task_type ∉ cfg.supported_task_types then
    StepResult.requeue { task with priority := QueuePriority.LOW } 60
  else if cfg.supported_markets ≠ [] ∧ task.market ∉ cfg.supported_markets then
    StepResult.requeue { task with priority := QueuePriority.LOW } 60
  else
    StepResult.dispatch task

end ServicesC

/-!
### Interleaving model of the per-priority dequeue loops

Both modules run one `_consume_queue` / `_consume_priority_queue` coroutine
per listened priority.  Each loop body is: check
`len(active_executions) >= max_concurrent_tasks` (sleep and retry if so),
then `await dequeue_task(...)` — a suspension point during which every other
loop may run — then insert the new execution into `active_executions`.
A loop is therefore either `idle` (about to run the check) or `inflight`
(check passed, suspended in the blocking dequeue, insertion still pending).
-/

/-- Phase of one per-priority dequeue loop. -/
inductive LoopPhase where
  | idle
  | inflight
deriving DecidableEq

/-- Worker-local state relevant to the concurrency bound: the phase of each
dequeue loop and the size of the `active_executions` map. -/
structure ConsumerState where
  phases : List LoopPhase
  active : Nat
deriving DecidableEq

/-- Number of loops currently between a passed concurrency check and the
corresponding insertion. -/
def countInflight : List LoopPhase → Nat
  | [] => 0
  | LoopPhase.inflight :: rest => countInflight rest + 1
  | LoopPhase.idle :: rest => countInflight rest

/-- One atomic scheduler step of the worker, for concurrency cap `maxC`:

* `checkPass i` — loop `i` runs `len(active_executions) >= max_concurrent_tasks`,
  finds it false, and suspends in `dequeue_task` (lines 197-211 of the
  services module, 203-211 of the consumer module);
* `insertTask i` — loop `i`'s dequeue returned a task and the loop stores the
  execution in `active_executions` (line 244 resp. 248);
* `dequeueEmpty i` — loop `i`'s dequeue returned `None` (or the task was
  filter-rejected and re-enqueued), so the loop returns to its check;
* `finishTask` — some `_execute_task` coroutine finishes and its `finally`
  block pops the execution from the map. -/
inductive ConsumerStep (maxC : Nat) : ConsumerState → ConsumerState → Prop
  | checkPass (s : ConsumerState) (i : Nat) (hi : i < s.phases.length)
      (hidle : s.phases.get ⟨i, hi⟩ = LoopPhase.idle) (hlt : s.active < maxC) :
      ConsumerStep maxC s ⟨s.phases.set i LoopPhase.inflight, s.active⟩
  | insertTask (s : ConsumerState) (i : Nat) (hi : i < s.phases.length)
      (hinf : s.phases.get ⟨i, hi⟩ = LoopPhase.inflight) :
      ConsumerStep maxC s ⟨s.phases.set i LoopPhase.idle, s.active + 1⟩
  | dequeueEmpty (s : ConsumerState) (i : Nat) (hi : i < s.phases.length)
      (hinf : s.phases.get ⟨i, hi⟩ = LoopPhase.inflight) :
      ConsumerStep maxC s ⟨s.phases.set i LoopPhase.idle, s.active⟩
  | finishTask (s : ConsumerState) (hpos : 0 < s.active) :
      ConsumerStep maxC s ⟨s.phases, s.active - 1⟩

/-- States reachable by any interleaving of the `P` dequeue loops and the
dispatch coroutines, starting from an idle worker with an empty
`active_executions` map. -/
inductive ConsumerReachable (maxC P : Nat) : ConsumerState → Prop
  | init : ConsumerReachable maxC P ⟨List.replicate P LoopPhase.idle, 0⟩
  | step {s t : ConsumerState} :
      ConsumerReachable maxC P s → ConsumerStep maxC s t → ConsumerReachable maxC P t

lemma countInflight_le_length (l : List LoopPhase) : countInflight l ≤ l.length := by
  induction l with
  | nil => simp [countInflight]
  | cons a rest ih =>
    cases a <;> simp [countInflight] <;> omega

lemma countInflight_lt_of_idle (l : List LoopPhase) (i : Nat) (hi : i < l.length)
    (h : l.get ⟨i, hi⟩ = LoopPhase.idle) : countInflight l < l.length := by
  induction l generalizing i with
  | nil => simp at hi
  | cons a rest ih =>
    cases i with
    | zero =>
      simp at h
      subst h
      have := countInflight_le_length rest
      simp [countInflight]
      omega
    | succ j =>
      simp at hi
      have hj : j < rest.length := hi
      have := ih j hj (by simpa using h)
      cases a <;> simp [countInflight] <;> omega

lemma countInflight_set_inflight (l : List LoopPhase) (i : Nat) (hi : i < l.length)
    (h : l.get ⟨i, hi⟩ = LoopPhase.idle) :
    countInflight (l.set i LoopPhase.inflight) = countInflight l + 1 := by
  induction l generalizing i with
  | nil => simp at hi
  | cons a rest ih =>
    cases i with
    | zero =>
      simp at h
      subst h
      simp [countInflight, List.set]
    | succ j =>
      simp at hi
      have hj : j < rest.length := hi
      have := ih j hj (by simpa using h)
      cases a <;> simp [countInflight, List.set] <;> omega

lemma countInflight_set_idle (l : List LoopPhase) (i : Nat) (hi : i < l.length)
    (h : l.get ⟨i, hi⟩ = LoopPhase.inflight) :
    countInflight (l.set i LoopPhase.idle) + 1 = countInflight l := by
  induction l generalizing i with
  | nil => simp at hi
  | cons a rest ih =>
    cases i with
    | zero =>
      simp at h
      subst h
      simp [countInflight, List.set]
    | succ j =>
      simp at hi
      have hj : j < rest.length := hi
      have := ih j hj (by simpa using h)
      cases a <;> simp [countInflight, List.set] <;> omega

lemma countInflight_replicate_idle (n : Nat) :
    countInflight (List.replicate n LoopPhase.idle) = 0 := by
  induction n with
  | zero => simp [countInflight]
  | succ m ih => simpa [List.replicate, countInflight] using ih

/-- Inductive invariant for the interleaving model: the number of loops is
preserved and `active + inflight` stays below `maxC + P`. -/
lemma consumer_invariant {maxC P : Nat} (hP : 1 ≤ P) {s : ConsumerState}
    (h : ConsumerReachable maxC P s) :
    s.phases.length = P ∧ s.active + countInflight s.phases < maxC + P := by
  induction h with
  | init =>
    refine ⟨by simp, ?_⟩
    dsimp only
    rw [countInflight_replicate_idle]
    omega
  | step hr hs ih =>
    obtain ⟨hlen, hbound⟩ := ih
    cases hs with
    | checkPass i hi hidle hlt =>
      have hcnt := countInflight_set_inflight _ i hi hidle
      have hlt2 := countInflight_lt_of_idle _ i hi hidle
      refine ⟨?_, ?_⟩
      · dsimp only
        rw [List.length_set]
        exact hlen
      · dsimp only
        rw [hcnt]
        omega
    | insertTask i hi hinf =>
      have hcnt := countInflight_set_idle _ i hi hinf
      refine ⟨?_, ?_⟩
      · dsimp only
        rw [List.length_set]
        exact hlen
      · dsimp only
        omega
    | dequeueEmpty i hi hinf =>
      have hcnt := countInflight_set_idle _ i hi hinf
      refine ⟨?_, ?_⟩
      · dsimp only
        rw [List.length_set]
        exact hlen
      · dsimp only
        omega
    | finishTask hpos =>
      refine ⟨hlen, ?_⟩
      dsimp only
      omega

/-!
### K8s autoscaler (src/application/services/k8s_crawler_scheduler.py)

Times are seconds as `Nat` (the scheduler only compares `datetime.now()`
differences against the two-minute cooldown).
-/

/-- `ScalingAction` enum. -/
inductive ScalingAction where
  | SCALE_UP
  | SCALE_DOWN
  | NO_ACTION
deriving DecidableEq

/-- `DeploymentConfig` dataclass (k8s_crawler_scheduler.py, lines 31-40). -/
structure DeploymentConfig where
  name : String
  min_replicas : Nat
  max_replicas : Nat
  target_queue_depth : Nat
  scale_up_threshold : Nat
  scale_down_threshold : Nat
deriving DecidableEq

/-- `self.scaling_cooldown = timedelta(minutes=2)` in seconds. -/
def schedulerCooldown : Nat := 120

/-- The `saturn-crawler-critical` entry of `deployment_configs`. -/
def deploymentConfigCritical : DeploymentConfig :=
  ⟨"saturn-crawler-critical", 2, 8, 25, 40, 10⟩

/-- The `saturn-crawler-high` entry of `deployment_configs`. -/
def deploymentConfigHigh : DeploymentConfig :=
  ⟨"saturn-crawler-high", 2, 10, 50, 80, 20⟩

/-- The `saturn-crawler-normal` entry of `deployment_configs`. -/
def deploymentConfigNormal : DeploymentConfig :=
  ⟨"saturn-crawler-normal", 1, 5, 100, 150, 30⟩

/-- `K8sCrawlerScheduler._can_scale_now` (lines 313-323): NO_ACTION always
passes; otherwise true iff there is no recorded last action or strictly more
than the cooldown has elapsed since it. -/
def canScaleNow (lastAction : Option Nat) (now : Nat) (action : ScalingAction) : Bool :=
  match action with
  | ScalingAction.NO_ACTION => true
  | _ =>
    match lastAction with
    | none => true
    | some t => decide (schedulerCooldown < now - t)

/-- `K8sCrawlerScheduler._calculate_scale_up_amount` (lines 302-306):
`min(max(1, queue_depth // 50), 3)` — floor division, at least 1, at most 3. -/
def calculateScaleUpAmount (queue_depth : Nat) : Nat :=
  min (max 1 (queue_depth / 50)) 3

/-- `K8sCrawlerScheduler._calculate_scale_down_amount` (lines 308-311). -/
def calculateScaleDownAmount : Nat := 1

/-- `K8sCrawlerScheduler._make_scaling_decision` (lines 234-300), reduced to
its pure decision: given the deployment config, the current replica count,
the aggregated queue depth, the recorded last scaling time and the current
time, produce the action and the target replica count.  The cooldown check
turns any action into NO_ACTION with `target = current`. -/
def makeScalingDecision (cfg : DeploymentConfig) (current : Nat) (totalDepth : Nat)
    (lastAction : Option Nat) (now : Nat) : ScalingAction × Nat :=
  let d : ScalingAction × Nat :=
    if cfg.scale_up_threshold ≤ totalDepth then
      (ScalingAction.SCALE_UP,
        min cfg.max_replicas (current + calculateScaleUpAmount totalDepth))
    else if totalDepth ≤ cfg.scale_down_threshold ∧ cfg.min_replicas < current then
      (ScalingAction.SCALE_DOWN,
        max cfg.min_replicas (current - calculateScaleDownAmount))
    else
      (ScalingAction.NO_ACTION, current)
  if canScaleNow lastAction now d.1 then d else (ScalingAction.NO_ACTION, current)

/-- Scheduler state for one deployment: the orchestrator's replica count and
the `last_scaling_actions` entry. -/
structure SchedState where
  replicas : Nat
  lastScale : Option Nat
deriving DecidableEq

/-- One autoscaler input: an automatic monitoring tick that observed
`totalDepth`, or a `manual_scale` request. -/
inductive SchedEvent where
  | tick (totalDepth : Nat) (now : Nat)
  | manual (replicas : Nat) (now : Nat)
deriving DecidableEq

/-- One autoscaler step.  The returned `Option (Nat × Nat)` is the applied
write, `(now, new replica count)`, if any.

* tick: `_monitoring_cycle` executes the decision only when its action is not
  NO_ACTION; `_execute_scaling_decision` (lines 340-380) returns early when
  `current == target` and otherwise patches the deployment and records
  `last_scaling_actions[name] = now`.
* manual: `manual_scale` (lines 382-423) validates
  `min_replicas <= replicas <= max_replicas` and otherwise builds a decision
  that bypasses `_make_scaling_decision` (hence also `_can_scale_now`) and
  hands it straight to `_execute_scaling_decision`. -/
def schedStep (cfg : DeploymentConfig) (s : SchedState) (e : SchedEvent) :
    SchedState × Option (Nat × Nat) :=
  match e with
  | SchedEvent.tick depth now =>
    let d := makeScalingDecision cfg s.replicas depth s.lastScale now
    if d.1 ≠ ScalingAction.NO_ACTION ∧ s.replicas ≠ d.2 then
      (⟨d.2, some now⟩, some (now, d.2))
    else
      (s, none)
  | SchedEvent.manual r now =>
    if r < cfg.min_replicas ∨ cfg.max_replicas < r then
      (s, none)
    else if s.replicas = r then
      (s, none)
    else
      (⟨r, some now⟩, some (now, r))

/-- Run a sequence of autoscaler events, collecting the applied writes. -/
def schedRun (cfg : DeploymentConfig) : SchedState → List SchedEvent →
    SchedState × List (Nat × Nat)
  | s, [] => (s, [])
  | s, e :: rest =>
    let p := schedStep cfg s e
    let q := schedRun cfg p.1 rest
    (q.1, (match p.2 with | some w => [w] | none => []) ++ q.2)

/-!
### Resource injector (src/application/services/proxy_integration_service.py)

EWMA arithmetic is embedded over `ℚ` (the Python source computes with
floats; the claims at issue are about which formula is applied on which
outcome, not about rounding).  Timestamps are seconds as `Int`.
-/

/-- `ProxyResource` dataclass (proxy_integration_service.py, lines 39-50),
restricted to the fields `report_resource_performance` touches. -/
structure ProxyResource where
  proxy_id : String
  market : String
  quality_score : ℚ
  success_rate : ℚ
  avg_response_time : ℚ
deriving DecidableEq

/-- `CookieResource` dataclass (proxy_integration_service.py, lines 53-62). -/
structure CookieResource where
  cookie_id : String
  market : String
  domain : String
  expires_at : Option Int
  last_validated : Option Int
  success_rate : ℚ
deriving DecidableEq

/-- Proxy part of `report_resource_performance` (lines 449-459):
on success `success_rate = min(1.0, success_rate * 0.9 + 0.1)`, on failure
`success_rate = max(0.0, success_rate * 0.9)`; then — OUTSIDE the
success/failure branch — `avg_response_time = avg_response_time * 0.8 +
response_time * 0.2` is applied on every outcome. -/
def reportProxyPerformance (p : ProxyResource) (success : Bool)
    (response_time : ℚ) : ProxyResource :=
  let p1 : ProxyResource :=
    if success then
      { p with success_rate := min 1 (p.success_rate * (9 / 10) + 1 / 10) }
    else
      { p with success_rate := max 0 (p.success_rate * (9 / 10)) }
  { p1 with avg_response_time := p1.avg_response_time * (8 / 10) + response_time * (2 / 10) }

/-- Cookie part of `report_resource_performance` (lines 461-467): the same
success-rate EWMA, and `last_validated = now` on success only. -/
def reportCookiePerformance (c : CookieResource) (success : Bool) (now : Int) :
    CookieResource :=
  if success then
    { c with success_rate := min 1 (c.success_rate * (9 / 10) + 1 / 10),
             last_validated := some now }
  else
    { c with success_rate := max 0 (c.success_rate * (9 / 10)) }

/-- Per-task-type resource policy (`task_resource_config` values). -/
structure TaskTypeResourceConfig where
  proxy_quality : String
  cookie_fresh : Bool
  priority : Nat
deriving DecidableEq

/-- `self.task_resource_config` dict (proxy_integration_service.py,
lines 87-93). -/
def taskResourceConfig : String → Option TaskTypeResourceConfig
  | "1m_realtime" => some ⟨"HIGH", true, 1⟩
  | "5m_realtime" => some ⟨"HIGH", true, 2⟩
  | "15m_realtime" => some ⟨"MEDIUM", true, 3⟩
  | "15m_backfill" => some ⟨"MEDIUM", false, 4⟩
  | "1d_backfill" => some ⟨"LOW", false, 5⟩
  | _ => none

/-- `task_config.get("cookie_fresh", False)` as used by
`_get_cookies_for_task` (line 241). -/
def cookieFreshFor (task_type : String) : Bool :=
  match taskResourceConfig task_type with
  | some c => c.cookie_fresh
  | none => false

/-- The 30-minute freshness window (`timedelta(minutes=30)`), in seconds. -/
def freshnessWindowSeconds : Int := 30 * 60

/-- Acceptance test of the cache scan in `_get_cookies_for_task`
(lines 244-255): skip a cached cookie iff
`cookie_res.expires_at and cookie_res.expires_at < now`, or
`need_fresh and cookie_res.last_validated` and
`now - cookie_res.last_validated > timedelta(minutes=30)`. -/
def cookieAcceptable (now : Int) (need_fresh : Bool) (c : CookieResource) : Bool :=
  (match c.expires_at with
   | some e => ! decide (e < now)
   | none => true)
  && (match c.last_validated with
      | some lv => ! (need_fresh && decide (freshnessWindowSeconds < now - lv))
      | none => true)

/-- `_get_cookies_for_task` (lines 237-287): return the first acceptable
cached cookie; on a cache miss, consult the credential pool via the
Dragonfly cache (`get_cached_resource`), here abstracted to its result
`pool`.  The boolean records whether the pool was consulted. -/
def getCookiesForTask (now : Int) (need_fresh : Bool)
    (cache : List CookieResource) (pool : Option CookieResource) :
    Option CookieResource × Bool :=
  match cache.find? (cookieAcceptable now need_fresh) with
  | some c => (some c, false)
  | none => (pool, true)

/-- Construction of the `CookieResource` inserted into `cookie_cache` from
pool data (lines 264-277): `last_validated` is always stamped with the fetch
time, so no cookie enters the cache without a validation timestamp. -/
def cookieFromPoolData (cookie_id market domain : String)
    (expires_at : Option Int) (success_rate : ℚ) (now : Int) : CookieResource :=
  ⟨cookie_id, market, domain, expires_at, some now, success_rate⟩

/-!
### Graceful drain (src/application/services/graceful_shutdown_manager.py)

The manager imports `TaskStatus` from the services-module consumer
(`from .dragonfly_task_consumer import ... TaskStatus`); that enum's members
are exactly the eight below.  Python attribute access
`TaskStatus.PENDING_RETRY` succeeds only for a member name and raises
`AttributeError` otherwise; the lookup is modelled by `lookupTaskStatus`.
-/

/-- The member names of the services-module `TaskStatus` enum
(src/application/services/dragonfly_task_consumer.py, lines 20-29). -/
def taskStatusMembers : List String :=
  ["QUEUED", "ASSIGNED", "RUNNING", "SUCCESS", "FAILED", "RETRY", "TIMEOUT", "CANCELLED"]

/-- Attribute access on the `TaskStatus` enum class: `some` for a member,
`none` (an `AttributeError` at runtime) otherwise. -/
def lookupTaskStatus (s : String) : Option String :=
  if s ∈ taskStatusMembers then some s else none

/-- A `TaskExecution` as the drain controller sees it. -/
structure DrainExecution where
  execution_id : String
  task_id : String
  retry_count : Nat
deriving DecidableEq

/-- Outcome of `GracefulShutdownManager._handle_incomplete_tasks`:
the broker re-enqueues performed by `_requeue_task` (task id with the
`retry_count` recorded in the requeue data), the status events published,
the execution ids still left in `active_executions`, and the two counters. -/
structure DrainResult where
  requeued : List (String × Nat)
  published : List (String × String)
  remaining : List String
  requeue_success : Nat
  requeue_failed : Nat
deriving DecidableEq

/-- `GracefulShutdownManager._handle_incomplete_tasks` (lines 214-273) with
`_requeue_task` (lines 275-311) inlined; `requeueOk` abstracts whether the
broker enqueue succeeds for a given task.  Per execution, in source order:

* `_requeue_task` returns true: the task was already re-enqueued with
  `retry_count + 1` in its data and `requeue_success` bumped; the manager
  then evaluates `TaskStatus.PENDING_RETRY` to publish the status — if that
  attribute lookup fails, the `except` at line 263 catches it, bumps
  `requeue_failed`, and the `pop` at line 261 never runs, so the execution
  stays in the active map and no status event is published;
* `_requeue_task` returns false: publish FAILED, bump `requeue_failed`, and
  pop the execution. -/
def handleIncompleteTasks (requeueOk : String → Bool) :
    List DrainExecution → DrainResult
  | [] => ⟨[], [], [], 0, 0⟩
  | e :: rest =>
    let r := handleIncompleteTasks requeueOk rest
    if requeueOk e.task_id then
      match lookupTaskStatus "PENDING_RETRY" with
      | some st =>
        ⟨(e.task_id, e.retry_count + 1) :: r.requeued,
          (e.task_id, st) :: r.published,
          r.remaining, r.requeue_success + 1, r.requeue_failed⟩
      | none =>
        ⟨(e.task_id, e.retry_count + 1) :: r.requeued,
          r.published,
          e.execution_id :: r.remaining, r.requeue_success + 1, r.requeue_failed + 1⟩
    else
      ⟨r.requeued,
        (e.task_id, "FAILED") :: r.published,
        r.remaining, r.requeue_success, r.requeue_failed + 1⟩

/-!
## Claim theorems
-/

/-- C2 (counterexample): the claim's delay formula `min(60·2^(rc−1), 300)`
fails on the services-module consumer: for a task failing with
`retry_count = 0` (first retry, incremented count 1), the claim demands a
60 s delay, but `ServicesC.handleTaskFailure` re-enqueues with 120 s
(`min(60·2^1, 3600)`). -/
theorem retry_backoff_claim_false_on_services :
    (ServicesC.handleTaskFailure
        ⟨"T3", "1m_realtime", "CN", QueuePriority.HIGH, 0, 3⟩).enqueues =
      [(⟨"T3", "1m_realtime", "CN", QueuePriority.HIGH, 1, 3⟩, 120)]
    ∧ min (60 * 2 ^ (1 - 1)) 300 = 60
    ∧ (120 : Nat) ≠ 60 := by decide

/-- C2 (amended): when a task's handler fails with retry budget remaining,
both consumers increment `retry_count` and re-enqueue exactly once, but with
different delays: the consumer-module variant uses
`min(60·2^(rc_after−1), 300)` (60, 120, 240, then capped at 300 s), while
the services-module variant uses `min(60·2^rc_after, 3600)`
(120, 240, 480, …, capped at 3600 s). -/
theorem retry_backoff_delays (task : DragonflyTask)
    (h : task.retry_count < task.max_retries) :
    ConsumerC.handleTaskFailure task =
      { statuses := [],
        enqueues := [({ task with retry_count := task.retry_count + 1 },
          min (60 * 2 ^ task.retry_count) 300)],
        successDelta := 0, failedDelta := 0, retryDelta := 1, timeoutDelta := 0 }
    ∧ ServicesC.handleTaskFailure task =
      { statuses := [(task.task_id, "RETRY")],
        enqueues := [({ task with retry_count := task.retry_count + 1 },
          min (60 * 2 ^ (task.retry_count + 1)) 3600)],
        successDelta := 0, failedDelta := 0, retryDelta := 1, timeoutDelta := 0 }
    ∧ min (60 * 2 ^ task.retry_count) 300 ≤ 300
    ∧ min (60 * 2 ^ (task.retry_count + 1)) 3600 ≤ 3600 := by
  refine ⟨?_, ?_, Nat.min_le_right _ _, Nat.min_le_right _ _⟩
  · simp [ConsumerC.handleTaskFailure, h]
  · simp [ServicesC.handleTaskFailure, h]

/-- C2 (witness): the amended theorem evaluated on the seed task `T3`
(`retry_count = 0`, `max_retries = 3`): first-retry delays 60 s
(consumer module) and 120 s (services module). -/
theorem retry_backoff_delays_w :
    (ConsumerC.handleTaskFailure
        ⟨"T3", "1m_realtime", "CN", QueuePriority.HIGH, 0, 3⟩).enqueues =
      [(⟨"T3", "1m_realtime", "CN", QueuePriority.HIGH, 1, 3⟩, 60)] := by
  have h := (retry_backoff_delays
    ⟨"T3", "1m_realtime", "CN", QueuePriority.HIGH, 0, 3⟩ (by decide)).1
  rw [h]
  decide

/-- C3 (counterexample): for a timed-out task with retry budget remaining
(`retry_count = 0 < 3 = max_retries`) the claim demands a RETRY status
event; the consumer-module variant publishes no status event at all on this
path, and the services-module variant publishes TIMEOUT — neither ever
publishes RETRY. -/
theorem timeout_retry_status_never_published :
    ConsumerC.handleTaskTimeout
        ⟨"T4", "5m_realtime", "CN", QueuePriority.NORMAL, 0, 3⟩ =
      ⟨[], [(⟨"T4", "5m_realtime", "CN", QueuePriority.NORMAL, 1, 3⟩, 300)],
        0, 0, 0, 1⟩
    ∧ (ServicesC.handleTaskTimeout
        ⟨"T4", "5m_realtime", "CN", QueuePriority.NORMAL, 0, 3⟩).statuses =
      [("T4", "TIMEOUT")]
    ∧ ("T4", "RETRY") ∉ (ConsumerC.handleTaskTimeout
        ⟨"T4", "5m_realtime", "CN", QueuePriority.NORMAL, 0, 3⟩).statuses
    ∧ ("T4", "RETRY") ∉ (ServicesC.handleTaskTimeout
        ⟨"T4", "5m_realtime", "CN", QueuePriority.NORMAL, 0, 3⟩).statuses := by
    decide

/-- C3 (amended): on deadline expiry with retry budget remaining both
variants increment `retry_count` and re-enqueue with the fixed 300 s delay,
but no RETRY status is published (the consumer module publishes nothing on
this path; the services module publishes TIMEOUT unconditionally); with the
budget exhausted both publish TIMEOUT; in either branch the worker's timeout
counter grows by exactly one. -/
theorem timeout_handling_both_variants (task : DragonflyTask) :
    (task.retry_count < task.max_retries →
      ConsumerC.handleTaskTimeout task =
        ⟨[], [({ task with retry_count := task.retry_count + 1 }, 300)], 0, 0, 0, 1⟩
      ∧ ServicesC.handleTaskTimeout task =
        ⟨[(task.task_id, "TIMEOUT")],
          [({ task with retry_count := task.retry_count + 1 }, 300)], 0, 0, 0, 1⟩)
    ∧ (task.max_retries ≤ task.retry_count →
      ConsumerC.handleTaskTimeout task = ⟨[(task.task_id, "TIMEOUT")], [], 0, 0, 0, 1⟩
      ∧ ServicesC.handleTaskTimeout task = ⟨[(task.task_id, "TIMEOUT")], [], 0, 0, 0, 1⟩) := by
  constructor
  · intro h
    constructor
    · simp [ConsumerC.handleTaskTimeout, h]
    · simp [ServicesC.handleTaskTimeout, h]
  · intro h
    constructor
    · simp [ConsumerC.handleTaskTimeout, Nat.not_lt.mpr h]
    · simp [ServicesC.handleTaskTimeout, Nat.not_lt.mpr h]

/-- C3 (witness): the amended theorem evaluated on a task with exhausted
budget (`retry_count = max_retries = 1`): both variants publish TIMEOUT and
bump the timeout counter. -/
theorem timeout_handling_both_variants_w :
    ConsumerC.handleTaskTimeout ⟨"T9", "1d_backfill", "US", QueuePriority.LOW, 1, 1⟩ =
      ⟨[("T9", "TIMEOUT")], [], 0, 0, 0, 1⟩ :=
  ((timeout_handling_both_variants
    ⟨"T9", "1d_backfill", "US", QueuePriority.LOW, 1, 1⟩).2 (by decide)).1

/-- C4 (counterexample): in the services-module consumer a task whose
`task_type` has no registered handler (and there is no default handler in
that module) is NOT published FAILED: with retry budget remaining
(`retry_count = 0 < 3`) it is published RUNNING then RETRY and re-enqueued
with the backoff delay, contradicting the claimed non-retryable policy. -/
theorem no_handler_task_is_retried :
    ServicesC.executeTask (fun _ => none)
        ⟨"T5", "unknown_type", "CN", QueuePriority.NORMAL, 0, 3⟩ =
      ⟨[("T5", "RUNNING"), ("T5", "RETRY")],
        [(⟨"T5", "unknown_type", "CN", QueuePriority.NORMAL, 1, 3⟩, 120)], 0, 0, 1, 0⟩
    ∧ ("T5", "FAILED") ∉ (ServicesC.executeTask (fun _ => none)
        ⟨"T5", "unknown_type", "CN", QueuePriority.NORMAL, 0, 3⟩).statuses
    ∧ (ServicesC.executeTask (fun _ => none)
        ⟨"T5", "unknown_type", "CN", QueuePriority.NORMAL, 0, 3⟩).enqueues ≠ [] := by
  decide

/-- C4 (amended): on a registry miss the consumer-module variant dispatches
the configured default handler (`crawler_engine.execute_crawling_task`); the
services-module variant has no default handler and treats the miss as an
ordinary task failure — retried with backoff while `retry_count <
max_retries`, published FAILED only once the budget is exhausted. -/
theorem no_handler_policy (handlers : HandlerMap)
    (defaultHandler : DragonflyTask → HandlerOutcome) (task : DragonflyTask)
    (hmiss : handlers task.task_type = none) :
    ConsumerC.executeTask handlers defaultHandler task =
      ConsumerC.executeTask (fun _ => some defaultHandler) defaultHandler task
    ∧ (task.retry_count < task.max_retries →
        ServicesC.executeTask handlers task =
          ⟨[(task.task_id, "RUNNING"), (task.task_id, "RETRY")],
            [({ task with retry_count := task.retry_count + 1 },
              min (60 * 2 ^ (task.retry_count + 1)) 3600)], 0, 0, 1, 0⟩)
    ∧ (task.max_retries ≤ task.retry_count →
        ServicesC.executeTask handlers task =
          ⟨[(task.task_id, "RUNNING"), (task.task_id, "FAILED")], [], 0, 1, 0, 0⟩) := by
  refine ⟨?_, ?_, ?_⟩
  · simp [ConsumerC.executeTask, hmiss]
  · intro h
    simp [ServicesC.executeTask, ServicesC.handleTaskFailure, hmiss, h]
  · intro h
    simp [ServicesC.executeTask, ServicesC.handleTaskFailure, hmiss, Nat.not_lt.mpr h]

/-- C4 (witness): the amended theorem evaluated on a no-handler task with
exhausted budget: the services-module variant publishes RUNNING then FAILED. -/
theorem no_handler_policy_w :
    ServicesC.executeTask (fun _ => none)
        ⟨"T6", "unknown_type", "HK", QueuePriority.LOW, 2, 2⟩ =
      ⟨[("T6", "RUNNING"), ("T6", "FAILED")], [], 0, 1, 0, 0⟩ :=
  ((no_handler_policy (fun _ => none) (fun _ => HandlerOutcome.ok)
    ⟨"T6", "unknown_type", "HK", QueuePriority.LOW, 2, 2⟩ rfl).2.2 (by decide))

/-- C5 (code_bug): the drain controller's success branch references
`TaskStatus.PENDING_RETRY`, but the services-module `TaskStatus` enum it
imports has no such member, so the attribute access raises
`AttributeError`.  Concretely, for one active execution `E1` of task `T1`
(`retry_count = 0`) whose broker re-enqueue succeeds: the task IS
re-enqueued with `retry_count + 1 = 1` recorded, but no status event at all
is published (in particular no PENDING_RETRY) and the execution is NOT
removed from the active map — both counters end up incremented. -/
theorem drain_pending_retry_attribute_error :
    "PENDING_RETRY" ∉ taskStatusMembers
    ∧ lookupTaskStatus "PENDING_RETRY" = none
    ∧ handleIncompleteTasks (fun _ => true) [⟨"E1", "T1", 0⟩] =
        ⟨[("T1", 1)], [], ["E1"], 1, 1⟩
    ∧ handleIncompleteTasks (fun _ => false) [⟨"E1", "T1", 0⟩] =
        ⟨[], [("T1", "FAILED")], [], 0, 1⟩ := by
  decide

/-- C1 (counterexample): with `max_concurrent_tasks = 1` and two
per-priority dequeue loops, the interleaving "loop 0 passes the concurrency
check; loop 1 passes the concurrency check; loop 0 inserts; loop 1 inserts"
is reachable and leaves `|active_executions| = 2 > 1`: the check and the
insertion are separated by the awaited blocking dequeue, so a second loop's
insertion can push the map past the cap. -/
theorem concurrency_cap_exceeded :
    ConsumerReachable 1 2 ⟨[LoopPhase.idle, LoopPhase.idle], 2⟩ ∧ 2 > 1 := by
  refine ⟨?_, by decide⟩
  have h0 : ConsumerReachable 1 2 ⟨[LoopPhase.idle, LoopPhase.idle], 0⟩ :=
    @ConsumerReachable.init 1 2
  have h1 : ConsumerReachable 1 2 ⟨[LoopPhase.inflight, LoopPhase.idle], 0⟩ :=
    ConsumerReachable.step h0
      (ConsumerStep.checkPass ⟨[LoopPhase.idle, LoopPhase.idle], 0⟩ 0
        (by decide) rfl (by decide))
  have h2 : ConsumerReachable 1 2 ⟨[LoopPhase.inflight, LoopPhase.inflight], 0⟩ :=
    ConsumerReachable.step h1
      (ConsumerStep.checkPass ⟨[LoopPhase.inflight, LoopPhase.idle], 0⟩ 1
        (by decide) rfl (by decide))
  have h3 : ConsumerReachable 1 2 ⟨[LoopPhase.idle, LoopPhase.inflight], 1⟩ :=
    ConsumerReachable.step h2
      (ConsumerStep.insertTask ⟨[LoopPhase.inflight, LoopPhase.inflight], 0⟩ 0
        (by decide) rfl)
  exact ConsumerReachable.step h3
    (ConsumerStep.insertTask ⟨[LoopPhase.idle, LoopPhase.inflight], 1⟩ 1
      (by decide) rfl)

/-- C1 (amended): over every interleaving of the `P ≥ 1` per-priority
dequeue loops and the dispatch coroutines, the active-execution map stays
strictly below `max_concurrent_tasks + P`, i.e.
`|active_executions| ≤ max_concurrent_tasks + P − 1` — each loop can
contribute at most one insertion pending from a check that passed while
`|active_executions| ≤ max_concurrent_tasks − 1`.  (For a worker with a
single dequeue loop this recovers the claimed bound.) -/
theorem concurrency_bound_amended {maxC P : Nat} {s : ConsumerState} (hP : 1 ≤ P)
    (h : ConsumerReachable maxC P s) : s.active < maxC + P := by
  have hinv := (consumer_invariant hP h).2
  omega

/-- C1 (witness): the amended bound applied to the initial state of a worker
with `max_concurrent_tasks = 5` and four priority loops. -/
theorem concurrency_bound_amended_w :
    1 ≤ 4 ∧ (⟨List.replicate 4 LoopPhase.idle, 0⟩ : ConsumerState).active < 5 + 4 :=
  ⟨by decide, concurrency_bound_amended (by decide) (@ConsumerReachable.init 5 4)⟩

lemma makeScalingDecision_target_bounds (cfg : DeploymentConfig)
    (current totalDepth : Nat) (lastAction : Option Nat) (now : Nat)
    (hm : cfg.min_replicas ≤ cfg.max_replicas)
    (h1 : cfg.min_replicas ≤ current) (h2 : current ≤ cfg.max_replicas) :
    cfg.min_replicas ≤ (makeScalingDecision cfg current totalDepth lastAction now).2
    ∧ (makeScalingDecision cfg current totalDepth lastAction now).2 ≤ cfg.max_replicas := by
  simp only [makeScalingDecision, calculateScaleUpAmount, calculateScaleDownAmount]
  split_ifs <;> dsimp only <;> omega

lemma schedStep_bounds (cfg : DeploymentConfig) (s : SchedState) (e : SchedEvent)
    (hm : cfg.min_replicas ≤ cfg.max_replicas)
    (h1 : cfg.min_replicas ≤ s.replicas) (h2 : s.replicas ≤ cfg.max_replicas) :
    (cfg.min_replicas ≤ (schedStep cfg s e).1.replicas
      ∧ (schedStep cfg s e).1.replicas ≤ cfg.max_replicas)
    ∧ (∀ w, (schedStep cfg s e).2 = some w →
        cfg.min_replicas ≤ w.2 ∧ w.2 ≤ cfg.max_replicas) := by
  cases e with
  | tick depth now =>
    have hb := makeScalingDecision_target_bounds cfg s.replicas depth s.lastScale now hm h1 h2
    simp only [schedStep]
    split_ifs with h
    · refine ⟨⟨hb.1, hb.2⟩, ?_⟩
      intro w hw
      simp only [Option.some.injEq] at hw
      subst hw
      exact ⟨hb.1, hb.2⟩
    · exact ⟨⟨h1, h2⟩, fun w hw => by simp at hw⟩
  | manual r now =>
    simp only [schedStep]
    split_ifs with hv he
    · exact ⟨⟨h1, h2⟩, fun w hw => by simp at hw⟩
    · exact ⟨⟨h1, h2⟩, fun w hw => by simp at hw⟩
    · refine ⟨⟨?_, ?_⟩, ?_⟩
      · dsimp only
        omega
      · dsimp only
        omega
      · intro w hw
        simp only [Option.some.injEq] at hw
        subst hw
        exact ⟨by omega, by omega⟩

lemma schedRun_writes_bounds (cfg : DeploymentConfig)
    (hm : cfg.min_replicas ≤ cfg.max_replicas) :
    ∀ (events : List SchedEvent) (s : SchedState),
      cfg.min_replicas ≤ s.replicas → s.replicas ≤ cfg.max_replicas →
      ∀ w ∈ (schedRun cfg s events).2,
        cfg.min_replicas ≤ w.2 ∧ w.2 ≤ cfg.max_replicas := by
  intro events
  induction events with
  | nil =>
    intro s h1 h2 w hw
    simp [schedRun] at hw
  | cons e rest ih =>
    intro s h1 h2 w hw
    have hb := schedStep_bounds cfg s e hm h1 h2
    simp only [schedRun, List.mem_append] at hw
    cases hw with
    | inl h =>
      cases hopt : (schedStep cfg s e).2 with
      | none => rw [hopt] at h; simp at h
      | some x =>
        rw [hopt] at h
        simp only [List.mem_singleton] at h
        subst h
        exact hb.2 w hopt
    | inr h => exact ih (schedStep cfg s e).1 hb.1.1 hb.1.2 w h

lemma tick_in_cooldown_applies_nothing (cfg : DeploymentConfig) (s : SchedState)
    (depth now t : Nat) (hl : s.lastScale = some t)
    (hc : now - t ≤ schedulerCooldown) :
    (schedStep cfg s (SchedEvent.tick depth now)).2 = none := by
  have hcd : (makeScalingDecision cfg s.replicas depth s.lastScale now).1 =
      ScalingAction.NO_ACTION := by
    have hnot : ¬ (120 < now - t) := by
      simp only [schedulerCooldown] at hc
      omega
    simp only [makeScalingDecision, canScaleNow, hl, schedulerCooldown]
    split_ifs <;> simp_all <;> omega
  simp only [schedStep]
  split_ifs with h
  · exact absurd hcd h.1
  · rfl

/-- C7 (counterexample): starting from `saturn-crawler-high`
(`min 2, max 10`, cooldown 2 min) at 3 replicas with no prior action, an
automatic tick at depth 160 applies a scale-up to 6 at t = 0 s, and a
`manual_scale` to 8 at t = 30 s is applied as well — two applied scaling
actions only 30 s apart, inside the cooldown window, because `manual_scale`
only records the cooldown timestamp and never checks it. -/
theorem manual_scale_ignores_cooldown :
    (schedRun deploymentConfigHigh ⟨3, none⟩
        [SchedEvent.tick 160 0, SchedEvent.manual 8 30]).2 = [(0, 6), (30, 8)]
    ∧ 30 - 0 ≤ schedulerCooldown := by decide

/-- C7 (amended): for every sequence of autoscaler events on a deployment
whose current replica count starts inside `[min_replicas, max_replicas]`
(with `min_replicas ≤ max_replicas`), every replica count the autoscaler
writes to the orchestrator stays inside `[min_replicas, max_replicas]`; and
an automatic tick never applies a scaling action within the 2-minute
cooldown of the previously applied action.  `manual_scale`, however, only
validates the bounds and records the action time — it bypasses the cooldown
check (hence the counterexample above). -/
theorem autoscaler_bounds_and_cooldown (cfg : DeploymentConfig) (s : SchedState)
    (events : List SchedEvent) (hm : cfg.min_replicas ≤ cfg.max_replicas)
    (h1 : cfg.min_replicas ≤ s.replicas) (h2 : s.replicas ≤ cfg.max_replicas) :
    (∀ w ∈ (schedRun cfg s events).2,
      cfg.min_replicas ≤ w.2 ∧ w.2 ≤ cfg.max_replicas)
    ∧ (∀ (s2 : SchedState) (depth now t : Nat), s2.lastScale = some t →
        now - t ≤ schedulerCooldown →
        (schedStep cfg s2 (SchedEvent.tick depth now)).2 = none) :=
  ⟨schedRun_writes_bounds cfg hm events s h1 h2,
    fun s2 depth now t hl hc => tick_in_cooldown_applies_nothing cfg s2 depth now t hl hc⟩

/-- C7 (witness): the amended theorem applied to `saturn-crawler-high` at
3 replicas over the single tick at depth 160: the applied write `(0, 6)`
lies within `[2, 10]`. -/
theorem autoscaler_bounds_and_cooldown_w : 2 ≤ 6 ∧ 6 ≤ 10 :=
  (autoscaler_bounds_and_cooldown deploymentConfigHigh ⟨3, none⟩
    [SchedEvent.tick 160 0] (by decide) (by decide) (by decide)).1 (0, 6) (by decide)

/-- Scale-up target as the claim words it: increment
`min(ceil(total_depth/50), 3)`, clamped to `max_replicas`.  Written from the
claim for comparison against the source's `_calculate_scale_up_amount`;
`(d + 49) / 50` is the ceiling of `d / 50` on naturals. -/
def claimScaleUpTarget (cfg : DeploymentConfig) (current totalDepth : Nat) : Nat :=
  min cfg.max_replicas (current + min ((totalDepth + 49) / 50) 3)

/-- C8 (counterexample): for `saturn-crawler-high`
(`scale_up_threshold = 80`, `max_replicas = 10`) at 3 replicas and depth
exactly 80, the code computes increment `min(max(1, 80 // 50), 3) = 1` and
target 4, while the claim's `min(ceil(80/50), 3) = 2` demands target 5. -/
theorem scale_up_floor_not_ceil :
    makeScalingDecision deploymentConfigHigh 3 80 none 0 = (ScalingAction.SCALE_UP, 4)
    ∧ claimScaleUpTarget deploymentConfigHigh 3 80 = 5
    ∧ (4 : Nat) ≠ 5 := by decide

/-- C8 (amended): whenever `total_depth ≥ scale_up_threshold` (and no prior
scaling time is recorded, so the cooldown passes), the decision is SCALE_UP
with target `min(max_replicas, current + min(max(1, total_depth // 50), 3))`
— the increment uses FLOOR division with a floor of 1, not the ceiling. -/
theorem scale_up_target_amended (cfg : DeploymentConfig) (current depth now : Nat)
    (h : cfg.scale_up_threshold ≤ depth) :
    makeScalingDecision cfg current depth none now =
      (ScalingAction.SCALE_UP,
        min cfg.max_replicas (current + min (max 1 (depth / 50)) 3)) := by
  simp [makeScalingDecision, canScaleNow, calculateScaleUpAmount, h]

/-- C8 (witness): the amended formula on the spec's own seed scenario
(`saturn-crawler-high`, 3 replicas, depth 160): target 6. -/
theorem scale_up_target_amended_w :
    makeScalingDecision deploymentConfigHigh 3 160 none 0 = (ScalingAction.SCALE_UP, 6) := by
  have h := scale_up_target_amended deploymentConfigHigh 3 160 0 (by decide)
  rw [h]
  decide

/-- C6 (counterexample): `report_resource_performance` updates
`avg_response_time` on FAILURE as well: for a bound proxy with
`avg_response_time = 0`, reporting `success = false` with
`response_time = 10` yields `avg_response_time = 0·0.8 + 10·0.2 = 2 ≠ 0`,
contradicting the claim that the average is unchanged when success is
false. -/
theorem proxy_avg_updated_on_failure :
    (reportProxyPerformance ⟨"p1", "CN", 1, 1, 0⟩ false 10).avg_response_time = 2
    ∧ ((2 : ℚ) ≠ 0)
    ∧ (⟨"p1", "CN", 1, 1, 0⟩ : ProxyResource).avg_response_time = 0 := by
  refine ⟨?_, by norm_num, rfl⟩
  simp only [reportProxyPerformance, Bool.false_eq_true, if_false]
  norm_num

/-- C6 (amended): for a bound proxy with `success_rate ∈ [0, 1]`,
`report_outcome` sets `success_rate` to `0.9·old + 0.1` on success and
`0.9·old` on failure (the `min 1`/`max 0` clamps are vacuous on `[0,1]`),
and sets `avg_response_time` to `0.8·old + 0.2·response_time` on EVERY
outcome — the average update sits outside the success branch. -/
theorem proxy_ewma_amended (p : ProxyResource) (success : Bool) (rt : ℚ)
    (h0 : 0 ≤ p.success_rate) (h1 : p.success_rate ≤ 1) :
    (reportProxyPerformance p true rt).success_rate = p.success_rate * (9 / 10) + 1 / 10
    ∧ (reportProxyPerformance p false rt).success_rate = p.success_rate * (9 / 10)
    ∧ (reportProxyPerformance p success rt).avg_response_time
        = p.avg_response_time * (8 / 10) + rt * (2 / 10) := by
  refine ⟨?_, ?_, ?_⟩
  · simp only [reportProxyPerformance, if_true]
    rw [min_eq_right (by linarith)]
  · simp only [reportProxyPerformance, Bool.false_eq_true, if_false]
    rw [max_eq_right (by linarith)]
  · cases success <;> simp [reportProxyPerformance]

/-- C6 (witness): the amended theorem on a proxy with `success_rate = 1/2`,
`avg_response_time = 4`, reporting success with `response_time = 2`. -/
theorem proxy_ewma_amended_w :
    (reportProxyPerformance ⟨"p1", "CN", 1, 1/2, 4⟩ true 2).success_rate
      = (1/2 : ℚ) * (9 / 10) + 1 / 10 :=
  (proxy_ewma_amended ⟨"p1", "CN", 1, 1/2, 4⟩ true 2 (by norm_num) (by norm_num)).1

/-- C9: the credential cache scan of `_get_cookies_for_task` enforces expiry
and freshness: (i) a cookie returned from the cache is a cache member, is
not expired (`expires_at`, when set, is not before `now`), and — when the
task's policy requires freshness — its `last_validated` timestamp, when
recorded, is within the 30-minute window; (ii) when every cached cookie is
rejected by the scan, the credential pool (Dragonfly cache) is consulted and
its result returned; (iii) the realtime task types `1m_realtime`,
`5m_realtime`, `15m_realtime` all require freshness; (iv) every cookie the
code inserts into the cache carries `last_validated = ` fetch time, so no
cached cookie lacks the timestamp the window check reads. -/
theorem credential_freshness_enforced :
    (∀ (now : Int) (nf : Bool) (cache : List CookieResource) (c : CookieResource),
      cache.find? (cookieAcceptable now nf) = some c →
      c ∈ cache
      ∧ (∀ e, c.expires_at = some e → ¬ e < now)
      ∧ (nf = true → ∀ lv, c.last_validated = some lv →
          now - lv ≤ freshnessWindowSeconds))
    ∧ (∀ (now : Int) (nf : Bool) (cache : List CookieResource)
        (pool : Option CookieResource),
      (∀ c ∈ cache, cookieAcceptable now nf c = false) →
      getCookiesForTask now nf cache pool = (pool, true))
    ∧ cookieFreshFor "1m_realtime" = true
    ∧ cookieFreshFor "5m_realtime" = true
    ∧ cookieFreshFor "15m_realtime" = true
    ∧ (∀ (cid mkt dom : String) (ea : Option Int) (sr : ℚ) (now : Int),
      (cookieFromPoolData cid mkt dom ea sr now).last_validated = some now) := by
  refine ⟨?_, ?_, rfl, rfl, rfl, fun _ _ _ _ _ _ => rfl⟩
  · intro now nf cache c hfind
    have hmem : c ∈ cache := List.mem_of_find?_eq_some hfind
    have hacc : cookieAcceptable now nf c = true := List.find?_some hfind
    simp only [cookieAcceptable, Bool.and_eq_true] at hacc
    refine ⟨hmem, ?_, ?_⟩
    · intro e he
      rw [he] at hacc
      have h1 := hacc.1
      simp only [Bool.not_eq_eq_eq_not, Bool.not_true, decide_eq_false_iff_not] at h1
      exact h1
    · intro hnf lv hlv
      rw [hlv, hnf] at hacc
      have h2 := hacc.2
      simp only [Bool.not_eq_eq_eq_not, Bool.not_true, Bool.and_eq_false_iff,
        decide_eq_false_iff_not] at h2
      rcases h2 with h2 | h2
      · simp at h2
      · omega
  · intro now nf cache pool hall
    have hnone : cache.find? (cookieAcceptable now nf) = none := by
      rw [List.find?_eq_none]
      intro c hc
      simp [hall c hc]
    simp [getCookiesForTask, hnone]

/-- C9 (witness): the theorem's cache-scan part evaluated on a concrete
fresh cookie (`now = 1000`, expiry 5000, validated at 100, window 1800 s):
the scan returns it and its expiry is indeed not in the past. -/
theorem credential_freshness_enforced_w :
    ¬ ((5000 : Int) < 1000) :=
  ((credential_freshness_enforced.1 1000 true
      [⟨"c1", "CN", "xueqiu.com", some 5000, some 100, 1⟩]
      ⟨"c1", "CN", "xueqiu.com", some 5000, some 100, 1⟩ (by decide)).2.1
    5000 rfl)

/-- C10: a dequeued task whose `task_type` is outside the worker's supported
task types or whose `market` is outside the supported markets is re-enqueued
with priority forced to LOW and a 60-second delay, whatever its original
priority — the loop `continue`s without creating an execution, so the
dispatch path (the only place RUNNING is published or failures counted) is
never reached.  This holds in the consumer module unconditionally and in the
services module whenever the configured lists are non-empty (its guards test
the lists' truthiness first). -/
theorem filter_reject_routes_to_low (cfg : WorkerConfig) (task : DragonflyTask)
    (h : task.task_type ∉ cfg.supported_task_types
      ∨ task.market ∉ cfg.supported_markets) :
    ConsumerC.filterTask cfg task
      = StepResult.requeue { task with priority := QueuePriority.LOW } 60
    ∧ (cfg.supported_task_types ≠ [] → cfg.supported_markets ≠ [] →
      ServicesC.filterTask cfg task
        = StepResult.requeue { task with priority := QueuePriority.LOW } 60) := by
  constructor
  · rcases h with hx | hx
    · simp [ConsumerC.filterTask, hx]
    · by_cases ht : task.task_type ∈ cfg.supported_task_types
      · simp [ConsumerC.filterTask, ht, hx]
      · simp [ConsumerC.filterTask, ht]
  · intro hne1 hne2
    rcases h with hx | hx
    · simp [ServicesC.filterTask, hx, hne1]
    · by_cases ht : task.task_type ∈ cfg.supported_task_types
      · simp [ServicesC.filterTask, ht, hx, hne1, hne2]
      · simp [ServicesC.filterTask, ht, hne1]

/-- C10 (witness): a CRITICAL task for market JP offered to a worker
supporting only CN/US/HK: both variants re-enqueue it at LOW with delay 60. -/
theorem filter_reject_routes_to_low_w :
    ConsumerC.filterTask
        ⟨"w1", 5, 300, ["1m_realtime", "1d_backfill"], ["CN", "US", "HK"]⟩
        ⟨"T2", "1d_backfill", "JP", QueuePriority.CRITICAL, 0, 3⟩
      = StepResult.requeue
          ⟨"T2", "1d_backfill", "JP", QueuePriority.LOW, 0, 3⟩ 60 := by
  have h := (filter_reject_routes_to_low
    ⟨"w1", 5, 300, ["1m_realtime", "1d_backfill"], ["CN", "US", "HK"]⟩
    ⟨"T2", "1d_backfill", "JP", QueuePriority.CRITICAL, 0, 3⟩
    (Or.inr (by decide))).1
  rw [h]
